import Mathlib

/-!
Shallow embedding of the recommendation-ranking pipeline of the
`sg-car-advisor` repository, together with proofs settling the frozen
claims about it.

Embedded source files:
* `db_search.py` — `search_cars_in_duckdb` and `search_with_fallback`;
* `value_model.py` — `_normalize` and `compute_value_scores`;
* `filters.py` — `build_filters_from_profile` (the second of the two
  same-named definitions in the file, which is the one Python keeps and
  which `app.py` imports and calls).

Modelling conventions:
* Python strings are modelled as `List Char`; `str.lower` as a map of
  `Char.toLower` (the inputs of interest are ASCII).
* Python `float` literals `0.8`, `1.2` are modelled as exact rationals;
  Python `int(x)` on a float is truncation toward zero.
* The DuckDB table `car_listings` is a `List Listing`; only the columns
  the WHERE clause and ORDER BY read are modelled, the other selected
  columns ride along unchanged and never influence the result set.
  `ORDER BY price_sgd ASC` leaves the order of equal-price rows
  unspecified; `List.insertionSort` by price fixes one admissible order.
* A pandas column is a `List (Option ℚ)`: `none` is NaN (a missing value
  or the result of `pd.to_numeric(errors="coerce")` on a non-numeric
  value), `some q` a numeric value.
* Code that can raise a Python exception is embedded in `Except String`,
  with the error string naming the exception class.
-/

namespace SgCar

/-! ## Python-style character-list helpers -/

/-- `startsWithL l p`: `p` is an initial segment of `l`. -/
def startsWithL : List Char → List Char → Bool
  | _, [] => true
  | [], _ :: _ => false
  | a :: as, b :: bs => a == b && startsWithL as bs

/-- `containsSub l p`: `p` occurs contiguously inside `l`.  This is both
SQL `LIKE '%p%'` and the Python substring test `p in l`. -/
def containsSub : List Char → List Char → Bool
  | [], p => p.isEmpty
  | a :: rest, p => startsWithL (a :: rest) p || containsSub rest p

/-- Python `str.lower` (ASCII). -/
def pyLowerStr (s : List Char) : List Char := s.map Char.toLower

/-- Fuel-driven worker for `pyReplace`; the fuel (initially the length of
the string) makes the recursion structural.  Each step consumes at least
one character of the scanned string, so the fuel never runs out. -/
def pyReplaceFuel : Nat → List Char → List Char → List Char → List Char
  | 0, s, _, _ => s
  | _ + 1, [], _, _ => []
  | fuel + 1, c :: rest, pat, rep =>
    if !pat.isEmpty && startsWithL (c :: rest) pat then
      rep ++ pyReplaceFuel fuel ((c :: rest).drop pat.length) pat rep
    else
      c :: pyReplaceFuel fuel rest pat rep

/-- Python `str.replace(pat, rep)`: replace every non-overlapping
occurrence of `pat`, scanning left to right.  (Only used with non-empty
patterns, so the empty-pattern corner of Python is irrelevant.) -/
def pyReplace (s pat rep : List Char) : List Char :=
  pyReplaceFuel s.length s pat rep

/-- Python `str.strip()`: remove whitespace from both ends. -/
def pyStrip (s : List Char) : List Char :=
  (((s.dropWhile Char.isWhitespace).reverse.dropWhile Char.isWhitespace)).reverse

/-! ## `db_search.py` : the listings store and the query -/

/-- One row of the `car_listings` table, restricted to the columns that
`search_cars_in_duckdb` actually reads in its WHERE clause and ORDER BY
(`make`, `price_sgd`, `year`, `mileage_km`); the remaining selected
columns are payload that never influences which rows come back or in
which order. -/
structure Listing where
  make : List Char
  price_sgd : Int
  year : Int
  mileage_km : Int
deriving DecidableEq

/-- The `filters` dict handed to `search_cars_in_duckdb`.  A field is
`none` when the key is absent or holds Python `None` (both read back as
`None` by `dict.get`).  The last five fields are carried in the dict
built by `build_filters_from_profile` but are never read by the query. -/
structure Filters where
  brand : Option (List Char) := none
  min_price : Option Int := none
  max_price : Option Int := none
  min_year : Option Int := none
  max_year : Option Int := none
  min_mileage : Option Int := none
  max_mileage : Option Int := none
  max_owners : Option Int := none
  engine_cc_category : Option Int := none
  body_type_code : Option Int := none
  min_depreciation : Option Int := none
  max_depreciation : Option Int := none
deriving DecidableEq

/-- One optional clause of the conjunctive WHERE: an absent field
contributes no clause (`true`). -/
def optClause (o : Option Int) (g : Int → Bool) : Bool :=
  match o with
  | none => true
  | some x => g x

/-- The brand clause: only a truthy brand (Python `if brand:`, so
present and non-empty) contributes the case-insensitive substring
condition `LOWER(make) LIKE '%' || lower(brand) || '%'`. -/
def brandClause (o : Option (List Char)) (make : List Char) : Bool :=
  match o with
  | none => true
  | some b => b.isEmpty || containsSub (pyLowerStr make) (pyLowerStr b)

/-- The conjunctive WHERE predicate of `search_cars_in_duckdb`: one
clause per filter field that is present; an absent field contributes no
clause.  The numeric clauses are the inclusive comparisons of the
source. -/
def rowMatches (f : Filters) (r : Listing) : Bool :=
  brandClause f.brand r.make
  && optClause f.min_price (fun p => p ≤ r.price_sgd)
  && optClause f.max_price (fun p => r.price_sgd ≤ p)
  && optClause f.min_year (fun y => y ≤ r.year)
  && optClause f.max_year (fun y => r.year ≤ y)
  && optClause f.min_mileage (fun m => m ≤ r.mileage_km)
  && optClause f.max_mileage (fun m => r.mileage_km ≤ m)

/-- The ORDER BY relation: non-decreasing `price_sgd`. -/
def priceLE (a b : Listing) : Prop := a.price_sgd ≤ b.price_sgd

instance : DecidableRel priceLE := fun a b => Int.decLe a.price_sgd b.price_sgd

instance : IsTotal Listing priceLE := ⟨fun a b => Int.le_total a.price_sgd b.price_sgd⟩

instance : IsTrans Listing priceLE := ⟨fun _ _ _ h1 h2 => le_trans h1 h2⟩

/-- `search_cars_in_duckdb(filters, limit)`: WHERE (conjunction of the
clauses of the present fields) → ORDER BY `price_sgd` ASC → LIMIT. -/
def search_cars_in_duckdb (store : List Listing) (f : Filters) (limit : Nat) : List Listing :=
  (List.insertionSort priceLE (store.filter (rowMatches f))).take limit

/-- The stage-2 dict of `search_with_fallback`: a copy of `filters` with
the four year/mileage keys overwritten by `None`. -/
def relaxedOf (f : Filters) : Filters :=
  { f with min_year := none, max_year := none, min_mileage := none, max_mileage := none }

/-- The stage-3 dict of `search_with_fallback`: only the `brand`,
`min_price` and `max_price` keys of the relaxed dict; every other key is
absent. -/
def superRelaxedOf (f : Filters) : Filters :=
  { brand := (relaxedOf f).brand
    min_price := (relaxedOf f).min_price
    max_price := (relaxedOf f).max_price }

/-- `search_with_fallback(filters, limit)`: four progressively relaxed
queries, returning the first non-empty result (`df.empty` is emptiness
of the result list; the source stores each query in a local `df`
variable, here simply repeated). -/
def search_with_fallback (store : List Listing) (f : Filters) (limit : Nat) : List Listing :=
  if search_cars_in_duckdb store f limit ≠ [] then
    search_cars_in_duckdb store f limit
  else if search_cars_in_duckdb store (relaxedOf f) limit ≠ [] then
    search_cars_in_duckdb store (relaxedOf f) limit
  else if search_cars_in_duckdb store (superRelaxedOf f) limit ≠ [] then
    search_cars_in_duckdb store (superRelaxedOf f) limit
  else search_cars_in_duckdb store {} limit

/-! ## `value_model.py` : normalization, composite score, dense rank -/

/-- A raw cell of the frame handed to `compute_value_scores`: a numeric
value, a non-numeric value (which `pd.to_numeric(errors="coerce")` turns
into NaN), or a missing value (NaN; also the case of a column that is
absent from the frame and is created as all-NaN by the source). -/
inductive Cell
  | num (q : ℚ)
  | nonNum
  | missing
deriving DecidableEq

/-- `pd.to_numeric(·, errors="coerce")` on one cell. -/
def toNumeric : Cell → Option ℚ
  | .num q => some q
  | .nonNum => none
  | .missing => none

/-- One row of the input frame, restricted to the four columns the value
model reads; all other columns of the frame pass through unchanged. -/
structure RawRow where
  price_sgd : Cell := .missing
  mileage_km : Cell := .missing
  depreciation_per_year : Cell := .missing
  year : Cell := .missing
deriving DecidableEq

/-- `series.min()` : minimum of the non-NaN entries, NaN (none) when
there are none.  (The source has already replaced ±inf by NaN; the
rational model has no infinities to replace.) -/
def colMin : List (Option ℚ) → Option ℚ
  | [] => none
  | none :: rest => colMin rest
  | some x :: rest =>
    match colMin rest with
    | none => some x
    | some y => some (min x y)

/-- `series.max()` : maximum of the non-NaN entries, NaN when none. -/
def colMax : List (Option ℚ) → Option ℚ
  | [] => none
  | none :: rest => colMax rest
  | some x :: rest =>
    match colMax rest with
    | none => some x
    | some y => some (max x y)

/-- Pointwise body of `_normalize`, given the column statistics: the
all-NaN branch and the `max_v == min_v` branch return the neutral `0.5`
for every row; otherwise `norm = (x - min)/(max - min)` (inverted to
`1 - norm` when `reverse=True`), with NaN cells staying NaN. -/
def normCell (mn? mx? : Option ℚ) (reverse : Bool) (c : Option ℚ) : Option ℚ :=
  match mn?, mx? with
  | some mn, some mx =>
    if mx = mn then some (1/2)
    else c.map (fun x => if reverse then 1 - (x - mn) / (mx - mn) else (x - mn) / (mx - mn))
  | _, _ => some (1/2)

/-- `_normalize(series, reverse)` of the source, written pointwise: the
branch on `s.isna().all()` is the `colMin = none` case of `normCell`,
the divide-by-zero guard is its `mx = mn` case, and the general case is
the elementwise min-max normalization with optional inversion. -/
def _normalize (col : List (Option ℚ)) (reverse : Bool) : List (Option ℚ) :=
  col.map (normCell (colMin col) (colMax col) reverse)

/-- The composite-score arithmetic of the source on one row:
`(0.40*p + 0.25*m + 0.20*d + 0.15*y) * 100`, with pandas NaN
propagation — the sum is NaN as soon as one addend is NaN. -/
def combineScore (p m d y : Option ℚ) : Option ℚ :=
  match p, m, d, y with
  | some p, some m, some d, some y =>
    some ((0.40 * p + 0.25 * m + 0.20 * d + 0.15 * y) * 100)
  | _, _, _, _ => none

/-- The distinct values of a list, each kept once (order irrelevant —
only the count of distinct greater values is ever used). -/
def distinctVals : List ℚ → List ℚ
  | [] => []
  | x :: xs =>
    let d := distinctVals xs
    if x ∈ d then d else x :: d

/-- `series.rank(ascending=False, method="dense")`: a NaN score keeps a
NaN rank (pandas default `na_option="keep"`); a defined score receives
one plus the number of distinct defined scores strictly greater than it
(so the highest score ranks 1, ties share a rank, no gaps).  pandas
returns the rank as a float; the value is always a positive integer and
is modelled as `ℕ`. -/
def denseRank (scores : List (Option ℚ)) : List (Option ℕ) :=
  let defined := distinctVals (scores.filterMap id)
  scores.map (fun s? => s?.map (fun s => 1 + (defined.filter (fun t => s < t)).length))

/-- Index-aligned binary zip-map (the columns it is applied to all have
the length of the input frame). -/
def map2 (f : α → β → γ) : List α → List β → List γ
  | a :: as, b :: bs => f a b :: map2 f as bs
  | _, _ => []

/-- Index-aligned 4-ary zip-map. -/
def map4 (f : α → β → γ → δ → ε) (as : List α) (bs : List β) (cs : List γ) (ds : List δ) :
    List ε :=
  map2 (fun ab cd => f ab.1 ab.2 cd.1 cd.2) (map2 Prod.mk as bs) (map2 Prod.mk cs ds)

/-- Index-aligned 6-ary zip-map. -/
def map6 (f : α → β → γ → δ → ε → ζ → η) (as : List α) (bs : List β) (cs : List γ)
    (ds : List δ) (es : List ε) (fs : List ζ) : List η :=
  map2 (fun abcd ef => f abcd.1.1 abcd.1.2 abcd.2.1 abcd.2.2 ef.1 ef.2)
    (map2 Prod.mk (map2 Prod.mk as bs) (map2 Prod.mk cs ds)) (map2 Prod.mk es fs)

/-- The derived columns `compute_value_scores` adds to one row. -/
structure ScoredRow where
  value_price : Option ℚ
  value_mileage : Option ℚ
  value_depreciation : Option ℚ
  value_year : Option ℚ
  value_score : Option ℚ
  value_rank : Option ℕ
deriving DecidableEq

/-- Column `price_sgd` after the `pd.to_numeric` coercion loop. -/
def priceCol (rows : List RawRow) : List (Option ℚ) := rows.map fun r => toNumeric r.price_sgd

/-- Column `mileage_km` after coercion. -/
def mileageCol (rows : List RawRow) : List (Option ℚ) := rows.map fun r => toNumeric r.mileage_km

/-- Column `depreciation_per_year` after coercion. -/
def depCol (rows : List RawRow) : List (Option ℚ) :=
  rows.map fun r => toNumeric r.depreciation_per_year

/-- Column `year` after coercion. -/
def yearCol (rows : List RawRow) : List (Option ℚ) := rows.map fun r => toNumeric r.year

/-- Column `df["value_price"]`. -/
def valuePriceCol (rows : List RawRow) : List (Option ℚ) := _normalize (priceCol rows) true

/-- Column `df["value_mileage"]`. -/
def valueMileageCol (rows : List RawRow) : List (Option ℚ) := _normalize (mileageCol rows) true

/-- Column `df["value_depreciation"]`. -/
def valueDepCol (rows : List RawRow) : List (Option ℚ) := _normalize (depCol rows) true

/-- Column `df["value_year"]` (`reverse=False`: newer scores higher). -/
def valueYearCol (rows : List RawRow) : List (Option ℚ) := _normalize (yearCol rows) false

/-- Column `df["value_score"]`. -/
def valueScoreCol (rows : List RawRow) : List (Option ℚ) :=
  map4 combineScore (valuePriceCol rows) (valueMileageCol rows) (valueDepCol rows)
    (valueYearCol rows)

/-- Column `df["value_rank"]`. -/
def valueRankCol (rows : List RawRow) : List (Option ℕ) :=
  denseRank (valueScoreCol rows)

/-- `compute_value_scores(df)`: coerce the four attribute columns to
numeric, normalize each (price, mileage, depreciation inverted; year
not), combine with the fixed weights scaled by 100, dense-rank the
scores descending, and return the frame with the new columns. -/
def compute_value_scores (rows : List RawRow) : List ScoredRow :=
  map6 ScoredRow.mk (valuePriceCol rows) (valueMileageCol rows) (valueDepCol rows)
    (valueYearCol rows) (valueScoreCol rows) (valueRankCol rows)

/-- Written from the specification text for comparison with the code:
"per-attribute min-max normalization to [0,1] across the input batch:
`norm = (x - min)/(max - min)`; degenerate case (all values equal or all
unknown) yields a neutral 0.5 for every row; lower-is-better attributes
are inverted to `1 - norm`".  `specNormAt col inverted i` is the
component of row `i` for the attribute whose coerced column is `col`. -/
def specNormAt (col : List (Option ℚ)) (inverted : Bool) (i : Nat) : Option ℚ :=
  match colMin col, colMax col with
  | some mn, some mx =>
    if mx = mn then some (1/2)
    else
      (col[i]?.join).map
        (fun x => if inverted then 1 - (x - mn) / (mx - mn) else (x - mn) / (mx - mn))
  | _, _ => some (1/2)

/-! ## `filters.py` : the profile and `build_filters_from_profile` -/

/-- A dynamically-typed Python value stored in the profile dict.  The
profile extractor produces strings and ints; `vNone` is a stored `None`
(distinct from an absent key for `dict.get` with a default). -/
inductive PyVal
  | vNone
  | vInt (n : Int)
  | vStr (s : List Char)
deriving DecidableEq

/-- The user-profile dict: `none` models an absent key. -/
structure Profile where
  budget_sgd : Option PyVal := none
  age_preference : Option PyVal := none
  mileage_tolerance : Option PyVal := none
  owner_tolerance : Option PyVal := none
  brand_bias : Option PyVal := none
  body_type_pref : Option PyVal := none
  running_cost_priority : Option PyVal := none
  fuel_pref : Option PyVal := none
  family_size : Option PyVal := none
deriving DecidableEq

/-- Python `v * f` with `f` a float literal (here `0.8` or `1.2`,
modelled exactly): defined for numbers, a `TypeError` otherwise. -/
def pyMulQ : PyVal → ℚ → Except String ℚ
  | .vInt n, q => .ok (n * q)
  | .vNone, _ => .error "TypeError: unsupported operand type for *"
  | .vStr _, _ => .error "TypeError: cannot multiply sequence by non-int"

/-- Python `int(x)` on a float: truncation toward zero. -/
def pyTrunc (q : ℚ) : Int := if 0 ≤ q then ⌊q⌋ else ⌈q⌉

/-- Python `v == "s"`: equality across types is `False`, never an
error. -/
def pyEqStr : PyVal → List Char → Bool
  | .vStr t, s => t == s
  | _, _ => false

/-- Python `v.lower()`: defined for strings, an `AttributeError`
otherwise (in particular for a stored `None` and for numbers). -/
def pyLower : PyVal → Except String (List Char)
  | .vStr s => .ok (pyLowerStr s)
  | _ => .error "AttributeError: object has no attribute lower"

/-- Python `v >= k` against an int: defined for numbers, a `TypeError`
otherwise. -/
def pyGeInt : PyVal → Int → Except String Bool
  | .vInt n, k => .ok (decide (k ≤ n))
  | _, _ => .error "TypeError: comparison not supported"

/-- The dict returned by `build_filters_from_profile`.  Its price, year,
mileage and owner bounds are always present integers (`min_mileage` is
the literal 0); `engine_cc_category`, `body_type_code` and the
depreciation bounds may be `None`. -/
structure BuiltFilters where
  brand : List Char
  min_price : Int
  max_price : Int
  min_year : Int
  max_year : Int
  min_mileage : Int
  max_mileage : Int
  max_owners : Int
  engine_cc_category : Option Int
  body_type_code : Option Int
  min_depreciation : Option Int
  max_depreciation : Option Int
deriving DecidableEq

/-- `build_filters_from_profile(profile)` (filters.py lines 334-419, the
definition Python keeps).  Steps in source order: (1) price band
`int(budget*0.8)`/`int(budget*1.2)` with `budget = profile.get("budget_sgd", 0)`;
(2) year range from `age_preference` (every branch sets `max_year` to
2025); (3) mileage ceiling from `mileage_tolerance`; (4) owner ceiling
from `owner_tolerance`; (5) brand from `brand_bias` if it contains
"prefer" (lower-cased, with "prefers"/"prefer" removed and the result
stripped), else empty; (6) body-type code from `body_type_pref`;
(7) depreciation bounds from `running_cost_priority`; (8) EV engine code
from `fuel_pref`; (9) family-size override of the body code. -/
def build_filters_from_profile (p : Profile) : Except String BuiltFilters := do
  let budget := p.budget_sgd.getD (.vInt 0)
  let bp ← pyMulQ budget 0.8
  let min_price := pyTrunc bp
  let bq ← pyMulQ budget 1.2
  let max_price := pyTrunc bq
  let age_pref := p.age_preference.getD (.vStr "balanced".data)
  let min_year : Int :=
    if pyEqStr age_pref "newest".data then 2020
    else if pyEqStr age_pref "older_ok".data then 2012
    else 2015
  let max_year : Int := 2025
  let mileage_pref := p.mileage_tolerance.getD (.vStr "medium".data)
  let max_mileage : Int :=
    if pyEqStr mileage_pref "low".data then 60000
    else if pyEqStr mileage_pref "high".data then 180000
    else 120000
  let owner_pref := p.owner_tolerance.getD (.vStr "medium".data)
  let max_owners : Int :=
    if pyEqStr owner_pref "low".data then 1
    else if pyEqStr owner_pref "high".data then 5
    else 3
  let brand0 := p.brand_bias.getD (.vStr "".data)
  let bl ← pyLower brand0
  let brand :=
    if containsSub bl "prefer".data then
      pyStrip (pyReplace (pyReplace bl "prefers".data "".data) "prefer".data "".data)
    else "".data
  let body_pref := p.body_type_pref.getD (.vStr "".data)
  let body_code : Option Int :=
    if pyEqStr body_pref "sedan_or_hatchback".data then some 4
    else if pyEqStr body_pref "mpv".data then some 7
    else if pyEqStr body_pref "suv".data then some 3
    else none
  let dep_pref := p.running_cost_priority.getD (.vStr "medium".data)
  let min_dep : Option Int := if pyEqStr dep_pref "high".data then some 15000 else none
  let max_dep : Option Int := if pyEqStr dep_pref "low".data then some 15000 else none
  let engine_cc_category : Option Int :=
    if pyEqStr (p.fuel_pref.getD .vNone) "ev".data then some 0 else none
  let fam := p.family_size.getD (.vInt 0)
  let ge5 ← pyGeInt fam 5
  let body_code := if ge5 && body_code.isNone then some 7 else body_code
  return { brand := brand
           min_price := min_price
           max_price := max_price
           min_year := min_year
           max_year := max_year
           min_mileage := 0
           max_mileage := max_mileage
           max_owners := max_owners
           engine_cc_category := engine_cc_category
           body_type_code := body_code
           min_depreciation := min_dep
           max_depreciation := max_dep }

/-- `True` when a stored budget (or family-size) value is an int, or the
key is absent; the numeric coercions of the builder succeed exactly
then. -/
def intOrAbsent : Option PyVal → Bool
  | none => true
  | some (.vInt _) => true
  | some _ => false

/-- `True` when a stored value is a string, or the key is absent. -/
def strOrAbsent : Option PyVal → Bool
  | none => true
  | some (.vStr _) => true
  | some _ => false

/-- The profiles on which `build_filters_from_profile` runs to
completion: `budget_sgd` and `family_size` absent or ints, `brand_bias`
absent or a string.  The remaining six preference fields are only used
in `==` comparisons and `dict.get` defaults, which never raise, so they
may hold anything. -/
def wellTypedProfile (p : Profile) : Bool :=
  intOrAbsent p.budget_sgd && strOrAbsent p.brand_bias && intOrAbsent p.family_size

/-- The dict returned by `build_filters_from_profile` as later read by
`db_search`: every key is present, so every numeric bound arrives as a
real constraint (the brand may be the empty string, which the query
treats as no constraint). -/
def builtToFilters (b : BuiltFilters) : Filters :=
  { brand := some b.brand
    min_price := some b.min_price
    max_price := some b.max_price
    min_year := some b.min_year
    max_year := some b.max_year
    min_mileage := some b.min_mileage
    max_mileage := some b.max_mileage
    max_owners := some b.max_owners
    engine_cc_category := b.engine_cc_category
    body_type_code := b.body_type_code
    min_depreciation := b.min_depreciation
    max_depreciation := b.max_depreciation }

/-! ## Concrete sample data used by witnesses and counterexamples -/

/-- Two sample listings. -/
def demoToyota : Listing :=
  { make := "Toyota Corolla".data, price_sgd := 50000, year := 2018, mileage_km := 80000 }

/-- Second sample listing (more expensive). -/
def demoHonda : Listing :=
  { make := "Honda Civic".data, price_sgd := 60000, year := 2019, mileage_km := 70000 }

/-- A two-row store. -/
def demoStore : List Listing := [demoToyota, demoHonda]

/-- Filters matching only the Toyota row. -/
def demoF : Filters := { brand := some "toy".data, min_price := some 40000 }

/-- Filters whose brand matches no row of the store. -/
def demoNoMatchF : Filters := { brand := some "bmw".data }

/-- Filters that defeat the first three fallback stages on `demoStore`
(the brand survives into stages 2 and 3). -/
def demoHopelessF : Filters := { brand := some "bmw".data, min_year := some 2030 }

/-- Row 0 of the value-model demo batch. -/
def demoRow0 : RawRow := { price_sgd := .num 1, mileage_km := .num 10, year := .num 2020 }

/-- Row 1 of the value-model demo batch. -/
def demoRow1 : RawRow := { price_sgd := .num 2, mileage_km := .num 20, year := .num 2020 }

/-- Row 2 of the value-model demo batch: non-numeric mileage. -/
def demoRow2 : RawRow := { price_sgd := .num 3, mileage_km := .nonNum, year := .num 2020 }

/-- Three-row batch for the value model: prices 1, 2, 3; mileages 10,
20 and a non-numeric entry; no depreciation column; constant year. -/
def demoBatch : List RawRow := [demoRow0, demoRow1, demoRow2]

/-- Expected scored row 0 of `demoBatch`. -/
def demoScored0 : ScoredRow :=
  { value_price := some 1, value_mileage := some 1, value_depreciation := some (1/2),
    value_year := some (1/2), value_score := some (165/2), value_rank := some 1 }

/-- Expected scored row 2 of `demoBatch`: its non-numeric mileage sits
in a column with two distinct numeric values, so its mileage component,
score and rank are all NaN. -/
def demoScored2 : ScoredRow :=
  { value_price := some 0, value_mileage := none, value_depreciation := some (1/2),
    value_year := some (1/2), value_score := none, value_rank := none }

/-- Cheaper row of the monotonicity batch. -/
def c8row0 : RawRow := { price_sgd := .num 1, mileage_km := .num 5, year := .num 2020 }

/-- Dearer row of the monotonicity batch (all else identical). -/
def c8row1 : RawRow := { price_sgd := .num 2, mileage_km := .num 5, year := .num 2020 }

/-- Two-row batch for price monotonicity: identical mileage,
depreciation and year, prices 1 and 2. -/
def c8batch : List RawRow := [c8row0, c8row1]

/-- Expected scored row 0 of `c8batch`. -/
def c8scored0 : ScoredRow :=
  { value_price := some 1, value_mileage := some (1/2), value_depreciation := some (1/2),
    value_year := some (1/2), value_score := some 70, value_rank := some 1 }

/-- Expected scored row 1 of `c8batch`. -/
def c8scored1 : ScoredRow :=
  { value_price := some 0, value_mileage := some (1/2), value_depreciation := some (1/2),
    value_year := some (1/2), value_score := some 30, value_rank := some 2 }

/-- The dict built from the empty profile: every `dict.get` default
fires, and the price band collapses to `[0, 0]`. -/
def builtFromEmpty : BuiltFilters :=
  { brand := "".data, min_price := 0, max_price := 0, min_year := 2015, max_year := 2025,
    min_mileage := 0, max_mileage := 120000, max_owners := 3, engine_cc_category := none,
    body_type_code := none, min_depreciation := none, max_depreciation := none }

/-- The dict built from `{budget_sgd: -1}`: truncation toward zero gives
`min_price = 0 > max_price = -1`. -/
def builtFromNegBudget : BuiltFilters :=
  { builtFromEmpty with min_price := 0, max_price := -1 }

/-- The dict built from `{budget_sgd: 1}`: `max_price = int(1*1.2) = 1`,
not the 2 that rounding up would give. -/
def builtFromOne : BuiltFilters :=
  { builtFromEmpty with min_price := 0, max_price := 1 }

/-- The dict built from `{budget_sgd: 100000}`. -/
def builtFrom100k : BuiltFilters :=
  { builtFromEmpty with min_price := 80000, max_price := 120000 }

/-- A profile whose `brand_bias` holds a number: step 5 of the builder
calls `.lower()` on it and raises `AttributeError`. -/
def intBrandProfile : Profile := { brand_bias := some (.vInt 0) }

/-! ## General lemmas about the embedding -/

theorem ok_bind (a : α) (g : α → Except String β) :
    (Except.ok a : Except String α) >>= g = g a := rfl

theorem error_bind (e : String) (g : α → Except String β) :
    (Except.error e : Except String α) >>= g = Except.error e := rfl

theorem map2_getElem? (f : α → β → γ) (as : List α) (bs : List β) (i : Nat) :
    (map2 f as bs)[i]? =
      match as[i]?, bs[i]? with
      | some a, some b => some (f a b)
      | _, _ => none := by
  induction as generalizing bs i with
  | nil => cases bs <;> cases i <;> simp [map2]
  | cons a as ih =>
    cases bs with
    | nil => cases i <;> simp [map2]
    | cons b bs =>
      cases i with
      | zero => simp [map2]
      | succ n => simpa [map2] using ih bs n

theorem map4_getElem? (f : α → β → γ → δ → ε) (as : List α) (bs : List β) (cs : List γ)
    (ds : List δ) (i : Nat) :
    (map4 f as bs cs ds)[i]? =
      match as[i]?, bs[i]?, cs[i]?, ds[i]? with
      | some a, some b, some c, some d => some (f a b c d)
      | _, _, _, _ => none := by
  simp only [map4, map2_getElem?]
  rcases as[i]? with _ | a <;> rcases bs[i]? with _ | b <;> rcases cs[i]? with _ | c <;>
    rcases ds[i]? with _ | d <;> rfl

theorem map6_getElem? (f : α → β → γ → δ → ε → ζ → η) (as : List α) (bs : List β)
    (cs : List γ) (ds : List δ) (es : List ε) (fs : List ζ) (i : Nat) :
    (map6 f as bs cs ds es fs)[i]? =
      match as[i]?, bs[i]?, cs[i]?, ds[i]?, es[i]?, fs[i]? with
      | some a, some b, some c, some d, some e, some f6 => some (f a b c d e f6)
      | _, _, _, _, _, _ => none := by
  simp only [map6, map2_getElem?]
  rcases as[i]? with _ | a <;> rcases bs[i]? with _ | b <;> rcases cs[i]? with _ | c <;>
    rcases ds[i]? with _ | d <;> rcases es[i]? with _ | e <;> rcases fs[i]? with _ | f6 <;> rfl

theorem colMin_eq_none_iff (col : List (Option ℚ)) :
    colMin col = none ↔ ∀ c ∈ col, c = none := by
  induction col with
  | nil => simp [colMin]
  | cons c rest ih =>
    cases c with
    | none => simpa [colMin] using ih
    | some x =>
      simp only [colMin]
      constructor
      · intro h
        rcases hr : colMin rest with _ | y <;> rw [hr] at h <;> exact absurd h (by simp)
      · intro h
        exact absurd (h (some x) (by simp)) (by simp)

theorem colMax_eq_none_iff (col : List (Option ℚ)) :
    colMax col = none ↔ ∀ c ∈ col, c = none := by
  induction col with
  | nil => simp [colMax]
  | cons c rest ih =>
    cases c with
    | none => simpa [colMax] using ih
    | some x =>
      simp only [colMax]
      constructor
      · intro h
        rcases hr : colMax rest with _ | y <;> rw [hr] at h <;> exact absurd h (by simp)
      · intro h
        exact absurd (h (some x) (by simp)) (by simp)

theorem colMin_le (col : List (Option ℚ)) (i : Nat) (x : ℚ) (h : col[i]? = some (some x)) :
    ∃ mn, colMin col = some mn ∧ mn ≤ x := by
  induction col generalizing i with
  | nil => simp at h
  | cons c rest ih =>
    cases i with
    | zero =>
      simp only [List.getElem?_cons_zero, Option.some.injEq] at h
      subst h
      simp only [colMin]
      rcases hr : colMin rest with _ | y
      · exact ⟨x, rfl, le_refl x⟩
      · exact ⟨min x y, rfl, min_le_left x y⟩
    | succ n =>
      simp only [List.getElem?_cons_succ] at h
      obtain ⟨mn, hmn, hle⟩ := ih n h
      cases c with
      | none => exact ⟨mn, by simpa [colMin] using hmn, hle⟩
      | some v =>
        refine ⟨min v mn, ?_, le_trans (min_le_right v mn) hle⟩
        simp [colMin, hmn]

theorem le_colMax (col : List (Option ℚ)) (i : Nat) (x : ℚ) (h : col[i]? = some (some x)) :
    ∃ mx, colMax col = some mx ∧ x ≤ mx := by
  induction col generalizing i with
  | nil => simp at h
  | cons c rest ih =>
    cases i with
    | zero =>
      simp only [List.getElem?_cons_zero, Option.some.injEq] at h
      subst h
      simp only [colMax]
      rcases hr : colMax rest with _ | y
      · exact ⟨x, rfl, le_refl x⟩
      · exact ⟨max x y, rfl, le_max_left x y⟩
    | succ n =>
      simp only [List.getElem?_cons_succ] at h
      obtain ⟨mx, hmx, hle⟩ := ih n h
      cases c with
      | none => exact ⟨mx, by simpa [colMax] using hmx, hle⟩
      | some v =>
        refine ⟨max v mx, ?_, le_trans hle (le_max_right v mx)⟩
        simp [colMax, hmx]

theorem _normalize_getElem? (col : List (Option ℚ)) (rev : Bool) (i : Nat)
    (h : i < col.length) :
    (_normalize col rev)[i]? = some (specNormAt col rev i) := by
  rw [_normalize, List.getElem?_map, specNormAt, List.getElem?_eq_getElem h]
  rcases hmn : colMin col with _ | mn <;> rcases hmx : colMax col with _ | mx <;>
    simp [normCell, hmn, hmx]

theorem specNormAt_of_degenerate (col : List (Option ℚ)) (rev : Bool) (i : Nat)
    (h : colMin col = colMax col) :
    specNormAt col rev i = some (1/2) := by
  rw [specNormAt]
  rcases hmn : colMin col with _ | mn <;> rw [hmn] at h <;> rw [← h] <;> simp

theorem specNormAt_isSome (col : List (Option ℚ)) (rev : Bool) (i : Nat) (c : Option ℚ)
    (hc : col[i]? = some c) :
    (specNormAt col rev i).isSome = true ↔ (colMin col = colMax col ∨ c.isSome = true) := by
  rcases hmn : colMin col with _ | mn
  · have hmx : colMax col = none :=
      (colMax_eq_none_iff col).mpr ((colMin_eq_none_iff col).mp hmn)
    rw [specNormAt, hmn, hmx]
    simp
  · rcases hmx : colMax col with _ | mx
    · exact absurd ((colMin_eq_none_iff col).mpr ((colMax_eq_none_iff col).mp hmx))
        (by simp [hmn])
    · rw [specNormAt, hmn, hmx]
      by_cases he : mx = mn
      · simp [he, hmn, hmx]
      · simp only [if_neg he, hc, Option.some.injEq]
        have hj : (some c).join = c := rfl
        rw [hj]
        cases c <;> simp [Ne.symm he, Option.isSome]

theorem specNormAt_congr (col : List (Option ℚ)) (rev : Bool) (i j : Nat)
    (h : col[i]?.join = col[j]?.join) :
    specNormAt col rev i = specNormAt col rev j := by
  rw [specNormAt, specNormAt]
  rcases colMin col with _ | mn <;> rcases colMax col with _ | mx <;> first | rfl | rw [h]

/-- Everything `compute_value_scores` puts into row `i`: the four
components are the (spec-form) normalizations of the coerced columns at
`i`, the score is their weighted combination with NaN propagation, and
the rank is the dense descending rank of the score. -/
theorem scored_fields (rows : List RawRow) (i : Nat) (sr : ScoredRow)
    (h : (compute_value_scores rows)[i]? = some sr) :
    i < rows.length
  ∧ sr.value_price = specNormAt (priceCol rows) true i
  ∧ sr.value_mileage = specNormAt (mileageCol rows) true i
  ∧ sr.value_depreciation = specNormAt (depCol rows) true i
  ∧ sr.value_year = specNormAt (yearCol rows) false i
  ∧ sr.value_score
      = combineScore sr.value_price sr.value_mileage sr.value_depreciation sr.value_year
  ∧ sr.value_rank = sr.value_score.map (fun s =>
      1 + ((distinctVals ((valueScoreCol rows).filterMap id)).filter (fun t => s < t)).length) := by
  rw [compute_value_scores, map6_getElem?] at h
  rcases h1 : (valuePriceCol rows)[i]? with _ | p <;> rw [h1] at h
  · exact absurd h (by simp)
  rcases h2 : (valueMileageCol rows)[i]? with _ | m <;> rw [h2] at h
  · exact absurd h (by simp)
  rcases h3 : (valueDepCol rows)[i]? with _ | d <;> rw [h3] at h
  · exact absurd h (by simp)
  rcases h4 : (valueYearCol rows)[i]? with _ | y <;> rw [h4] at h
  · exact absurd h (by simp)
  rcases h5 : (valueScoreCol rows)[i]? with _ | s <;> rw [h5] at h
  · exact absurd h (by simp)
  rcases h6 : (valueRankCol rows)[i]? with _ | rk <;> rw [h6] at h
  · exact absurd h (by simp)
  simp only [Option.some.injEq] at h
  subst h
  have hlen : i < rows.length := by
    have := (List.getElem?_eq_some_iff.mp h1).1
    simpa [valuePriceCol, _normalize, priceCol] using this
  have hp : (valuePriceCol rows)[i]? = some (specNormAt (priceCol rows) true i) :=
    _normalize_getElem? _ _ _ (by simpa [priceCol] using hlen)
  have hm : (valueMileageCol rows)[i]? = some (specNormAt (mileageCol rows) true i) :=
    _normalize_getElem? _ _ _ (by simpa [mileageCol] using hlen)
  have hd : (valueDepCol rows)[i]? = some (specNormAt (depCol rows) true i) :=
    _normalize_getElem? _ _ _ (by simpa [depCol] using hlen)
  have hy : (valueYearCol rows)[i]? = some (specNormAt (yearCol rows) false i) :=
    _normalize_getElem? _ _ _ (by simpa [yearCol] using hlen)
  rw [h1] at hp
  rw [h2] at hm
  rw [h3] at hd
  rw [h4] at hy
  have hs : s = combineScore p m d y := by
    have h5b := map4_getElem? combineScore (valuePriceCol rows) (valueMileageCol rows)
      (valueDepCol rows) (valueYearCol rows) i
    rw [show map4 combineScore (valuePriceCol rows) (valueMileageCol rows) (valueDepCol rows)
      (valueYearCol rows) = valueScoreCol rows from rfl, h5] at h5b
    simp only [h1, h2, h3, h4] at h5b
    exact (Option.some.injEq _ _).mp h5b
  have hrk : rk = s.map (fun sc =>
      1 + ((distinctVals ((valueScoreCol rows).filterMap id)).filter (fun t => sc < t)).length) := by
    have h6b : (valueRankCol rows)[i]?
        = ((valueScoreCol rows)[i]?).map (Option.map (fun sc =>
            1 + ((distinctVals ((valueScoreCol rows).filterMap id)).filter
              (fun t => sc < t)).length)) := by
      rw [valueRankCol, denseRank, List.getElem?_map]
    rw [h5, h6] at h6b
    simpa using h6b
  exact ⟨hlen, (Option.some.injEq _ _).mp hp, (Option.some.injEq _ _).mp hm,
    (Option.some.injEq _ _).mp hd, (Option.some.injEq _ _).mp hy, hs, hrk⟩

/-- Shape of every successfully built filter dict: the budget read by
`dict.get` is an int `b`, the price band is `int(b*0.8)`/`int(b*1.2)`,
and the year/mileage fields come from their fixed branch constants. -/
theorem build_ok_shape (p : Profile) (f : BuiltFilters)
    (hf : build_filters_from_profile p = .ok f) :
    ∃ b : Int, p.budget_sgd.getD (.vInt 0) = .vInt b
  ∧ f.min_price = pyTrunc ((b : ℚ) * 0.8)
  ∧ f.max_price = pyTrunc ((b : ℚ) * 1.2)
  ∧ (f.min_year = 2020 ∨ f.min_year = 2012 ∨ f.min_year = 2015)
  ∧ f.max_year = 2025
  ∧ f.min_mileage = 0
  ∧ (f.max_mileage = 60000 ∨ f.max_mileage = 180000 ∨ f.max_mileage = 120000) := by
  rw [build_filters_from_profile] at hf
  rcases hb : p.budget_sgd.getD (.vInt 0) with _ | b | s <;> rw [hb] at hf
  · exact absurd hf (by simp [pyMulQ, error_bind])
  · rcases hbr : p.brand_bias.getD (.vStr "".data) with _ | n | s <;> rw [hbr] at hf
    · exact absurd hf (by simp [pyMulQ, pyLower, ok_bind, error_bind])
    · exact absurd hf (by simp [pyMulQ, pyLower, ok_bind, error_bind])
    · rcases hfam : p.family_size.getD (.vInt 0) with _ | n | s2 <;> rw [hfam] at hf
      · exact absurd hf (by simp [pyMulQ, pyLower, pyGeInt, ok_bind, error_bind])
      · simp only [pyMulQ, pyLower, pyGeInt, ok_bind,
          show ∀ a : BuiltFilters, (pure a : Except String BuiltFilters) = .ok a from
            fun _ => rfl, Except.ok.injEq] at hf
        subst hf
        refine ⟨b, rfl, rfl, rfl, ?_, rfl, rfl, ?_⟩
        · by_cases h1 : pyEqStr (p.age_preference.getD (.vStr "balanced".data)) "newest".data
            = true
          · simp [h1]
          · by_cases h2 : pyEqStr (p.age_preference.getD (.vStr "balanced".data))
              "older_ok".data = true
            · simp [h1, h2]
            · simp [h1, h2]
        · by_cases h1 : pyEqStr (p.mileage_tolerance.getD (.vStr "medium".data)) "low".data
            = true
          · simp [h1]
          · by_cases h2 : pyEqStr (p.mileage_tolerance.getD (.vStr "medium".data))
              "high".data = true
            · simp [h1, h2]
            · simp [h1, h2]
      · exact absurd hf (by simp [pyMulQ, pyLower, pyGeInt, ok_bind, error_bind])
  · exact absurd hf (by simp [pyMulQ, error_bind])

theorem optClause_iff (o : Option Int) (g : Int → Bool) :
    optClause o g = true ↔ ∀ x, o = some x → g x = true := by
  cases o <;> simp [optClause]

theorem brandClause_iff (o : Option (List Char)) (mk : List Char) :
    brandClause o mk = true ↔
      ∀ b, o = some b → b ≠ [] → containsSub (pyLowerStr mk) (pyLowerStr b) = true := by
  cases o with
  | none => simp [brandClause]
  | some b => cases b <;> simp [brandClause]

theorem rowMatches_iff (f : Filters) (r : Listing) :
    rowMatches f r = true ↔
      ((∀ b, f.brand = some b → b ≠ [] → containsSub (pyLowerStr r.make) (pyLowerStr b) = true)
      ∧ (∀ p, f.min_price = some p → p ≤ r.price_sgd)
      ∧ (∀ p, f.max_price = some p → r.price_sgd ≤ p)
      ∧ (∀ y, f.min_year = some y → y ≤ r.year)
      ∧ (∀ y, f.max_year = some y → r.year ≤ y)
      ∧ (∀ m, f.min_mileage = some m → m ≤ r.mileage_km)
      ∧ (∀ m, f.max_mileage = some m → r.mileage_km ≤ m)) := by
  simp only [rowMatches, Bool.and_eq_true, brandClause_iff, optClause_iff, decide_eq_true_eq,
    and_assoc]

/-! ## The claims -/

/-- C1: for every filters input and every positive limit, if the
listings store contains at least one row then `search_with_fallback`
returns a non-empty sequence — the terminal fourth stage queries with an
empty filter set, which returns up to `limit` listings whenever the
store is non-empty, so the controller never yields an empty result over
a non-empty store. -/
theorem c1_fallback_nonempty (store : List Listing) (f : Filters) (limit : Nat)
    (hs : store ≠ []) (hl : 0 < limit) :
    search_with_fallback store f limit ≠ [] := by
  have hterm : search_cars_in_duckdb store {} limit ≠ [] := by
    have hfil : store.filter (rowMatches ({} : Filters)) = store :=
      List.filter_eq_self.mpr (fun a _ => rfl)
    have hlen : (search_cars_in_duckdb store {} limit).length = min limit store.length := by
      rw [search_cars_in_duckdb, hfil, List.length_take,
        (List.perm_insertionSort priceLE store).length_eq]
    intro hnil
    rw [hnil] at hlen
    have h0 : limit = 0 ∨ store = [] := by simpa using hlen.symm
    rcases h0 with h | h
    · omega
    · exact hs h
  rw [search_with_fallback]
  split_ifs with h1 h2 h3
  · exact h1
  · exact h2
  · exact h3
  · exact hterm

/-- Witness for C1 at a concrete store, filter set and limit. -/
theorem c1_witness : search_with_fallback demoStore demoHopelessF 50 ≠ [] :=
  c1_fallback_nonempty demoStore demoHopelessF 50 (by decide) (by decide)

/-- C6: `query(filters, limit)` builds a conjunctive predicate only over
the fields present in `filters` (an absent field contributes no clause)
— brand as a case-insensitive substring match on make and inclusive
range predicates for price, year and mileage — returns rows ordered by
non-decreasing price truncated to `limit`, returns the cheapest `limit`
listings when no filter field is set, and returns an empty sequence
(never an error or null) when nothing matches. -/
theorem c6_query_contract (store : List Listing) (f : Filters) (limit : Nat) :
    (∀ r, rowMatches f r = true ↔
      ((∀ b, f.brand = some b → b ≠ [] → containsSub (pyLowerStr r.make) (pyLowerStr b) = true)
      ∧ (∀ p, f.min_price = some p → p ≤ r.price_sgd)
      ∧ (∀ p, f.max_price = some p → r.price_sgd ≤ p)
      ∧ (∀ y, f.min_year = some y → y ≤ r.year)
      ∧ (∀ y, f.max_year = some y → r.year ≤ y)
      ∧ (∀ m, f.min_mileage = some m → m ≤ r.mileage_km)
      ∧ (∀ m, f.max_mileage = some m → r.mileage_km ≤ m)))
  ∧ (search_cars_in_duckdb store f limit).Sorted priceLE
  ∧ (search_cars_in_duckdb store f limit).length ≤ limit
  ∧ (∀ r ∈ search_cars_in_duckdb store f limit, rowMatches f r = true)
  ∧ (f = {} →
      search_cars_in_duckdb store f limit = (List.insertionSort priceLE store).take limit)
  ∧ ((∀ r ∈ store, rowMatches f r = false) → search_cars_in_duckdb store f limit = []) := by
  refine ⟨fun r => rowMatches_iff f r, ?_, ?_, ?_, ?_, ?_⟩
  · exact List.Pairwise.sublist (List.take_sublist limit _)
      (List.sorted_insertionSort priceLE (store.filter (rowMatches f)))
  · exact List.length_take_le limit _
  · intro r hr
    exact List.of_mem_filter
      ((List.perm_insertionSort priceLE _).mem_iff.mp
        (List.Sublist.mem hr (List.take_sublist limit _)))
  · intro hf
    subst hf
    have hfil : store.filter (rowMatches ({} : Filters)) = store :=
      List.filter_eq_self.mpr (fun a _ => rfl)
    rw [search_cars_in_duckdb, hfil]
  · intro hnone
    have hfil : store.filter (rowMatches f) = [] :=
      List.filter_eq_nil_iff.mpr (fun a ha => by simp [hnone a ha])
    rw [search_cars_in_duckdb, hfil]
    show List.take limit ([] : List Listing) = []
    simp

/-- Witness for C6: a matched row of a concrete result, and the empty
result of a zero-match filter set. -/
theorem c6_witness :
    rowMatches demoF demoToyota = true
  ∧ search_cars_in_duckdb demoStore demoNoMatchF 50 = [] :=
  ⟨(c6_query_contract demoStore demoF 50).2.2.2.1 demoToyota (by decide),
   (c6_query_contract demoStore demoNoMatchF 50).2.2.2.2.2 (by decide)⟩

/-- C7: `search_with_fallback` implements exactly the four-stage
relaxation ladder and stops at the first stage that yields a non-empty
result: stage 1 queries with the full filter set as given; stage 2
removes only the year and mileage constraints while keeping the brand,
price, owners, body-type, engine-category and depreciation fields of the
dict; stage 3 keeps only the brand and the price bounds; stage 4 queries
with an empty filter set. -/
theorem c7_relaxation_ladder (store : List Listing) (f : Filters) (limit : Nat) :
    relaxedOf f = Filters.mk f.brand f.min_price f.max_price none none none none
      f.max_owners f.engine_cc_category f.body_type_code f.min_depreciation
      f.max_depreciation
  ∧ superRelaxedOf f
      = Filters.mk f.brand f.min_price f.max_price none none none none none none none
          none none
  ∧ (search_cars_in_duckdb store f limit ≠ [] →
      search_with_fallback store f limit = search_cars_in_duckdb store f limit)
  ∧ (search_cars_in_duckdb store f limit = [] →
     search_cars_in_duckdb store (relaxedOf f) limit ≠ [] →
      search_with_fallback store f limit = search_cars_in_duckdb store (relaxedOf f) limit)
  ∧ (search_cars_in_duckdb store f limit = [] →
     search_cars_in_duckdb store (relaxedOf f) limit = [] →
     search_cars_in_duckdb store (superRelaxedOf f) limit ≠ [] →
      search_with_fallback store f limit
        = search_cars_in_duckdb store (superRelaxedOf f) limit)
  ∧ (search_cars_in_duckdb store f limit = [] →
     search_cars_in_duckdb store (relaxedOf f) limit = [] →
     search_cars_in_duckdb store (superRelaxedOf f) limit = [] →
      search_with_fallback store f limit = search_cars_in_duckdb store {} limit) := by
  refine ⟨rfl, rfl, fun h1 => ?_, fun h1 h2 => ?_, fun h1 h2 h3 => ?_, fun h1 h2 h3 => ?_⟩
  · rw [search_with_fallback, if_pos h1]
  · rw [search_with_fallback, if_neg (not_not_intro h1), if_pos h2]
  · rw [search_with_fallback, if_neg (not_not_intro h1), if_neg (not_not_intro h2), if_pos h3]
  · rw [search_with_fallback, if_neg (not_not_intro h1), if_neg (not_not_intro h2),
      if_neg (not_not_intro h3)]

/-- Witness for C7: a concrete run that stops at stage 1 and a concrete
run that falls through to stage 4. -/
theorem c7_witness :
    search_with_fallback demoStore demoF 50 = search_cars_in_duckdb demoStore demoF 50
  ∧ search_with_fallback demoStore demoHopelessF 50 = search_cars_in_duckdb demoStore {} 50 :=
  ⟨(c7_relaxation_ladder demoStore demoF 50).2.2.1 (by decide),
   (c7_relaxation_ladder demoStore demoHopelessF 50).2.2.2.2.2 (by decide) (by decide)
     (by decide)⟩

/-- C10: the store query reads only the brand, price, year and mileage
fields of the filters and ignores `max_owners`, `engine_cc_category`,
`body_type_code` and the depreciation bounds; consequently the stage-2
and stage-3 queries of `search_with_fallback` return identical results
for every store, filter set and limit, so stage 3 can never be non-empty
when stage 2 was empty. -/
theorem c10_ignored_fields (store : List Listing) (f g : Filters) (limit : Nat) :
    (f.brand = g.brand → f.min_price = g.min_price → f.max_price = g.max_price →
     f.min_year = g.min_year → f.max_year = g.max_year → f.min_mileage = g.min_mileage →
     f.max_mileage = g.max_mileage →
      search_cars_in_duckdb store f limit = search_cars_in_duckdb store g limit)
  ∧ search_cars_in_duckdb store (relaxedOf f) limit
      = search_cars_in_duckdb store (superRelaxedOf f) limit
  ∧ (search_cars_in_duckdb store (relaxedOf f) limit = [] →
      search_cars_in_duckdb store (superRelaxedOf f) limit = []) := by
  have key : ∀ f1 f2 : Filters, f1.brand = f2.brand → f1.min_price = f2.min_price →
      f1.max_price = f2.max_price → f1.min_year = f2.min_year → f1.max_year = f2.max_year →
      f1.min_mileage = f2.min_mileage → f1.max_mileage = f2.max_mileage →
      search_cars_in_duckdb store f1 limit = search_cars_in_duckdb store f2 limit := by
    intro f1 f2 h1 h2 h3 h4 h5 h6 h7
    have hfg : ∀ r ∈ store, rowMatches f1 r = rowMatches f2 r := fun r _ => by
      simp only [rowMatches, h1, h2, h3, h4, h5, h6, h7]
    rw [search_cars_in_duckdb, search_cars_in_duckdb, List.filter_congr hfg]
  have h23 := key (relaxedOf f) (superRelaxedOf f) rfl rfl rfl rfl rfl rfl rfl
  exact ⟨key f g, h23, fun h => by rw [← h23]; exact h⟩

/-- Witness for C10: changing only ignored fields of a concrete filter
set leaves the concrete query result unchanged. -/
theorem c10_witness :
    search_cars_in_duckdb demoStore demoF 50
      = search_cars_in_duckdb demoStore
          { demoF with max_owners := some 1, body_type_code := some 5 } 50 :=
  (c10_ignored_fields demoStore demoF
    { demoF with max_owners := some 1, body_type_code := some 5 } 50).1
    rfl rfl rfl rfl rfl rfl rfl

theorem demoBatch_eval0 : (compute_value_scores demoBatch)[0]? = some demoScored0 := by
  norm_num [compute_value_scores, demoBatch, demoRow0, demoRow1, demoRow2, demoScored0,
    map6, map4, map2, valuePriceCol, valueMileageCol, valueDepCol, valueYearCol,
    valueScoreCol, valueRankCol, priceCol, mileageCol, depCol, yearCol, _normalize,
    normCell, colMin, colMax, toNumeric, combineScore, denseRank, distinctVals]

theorem demoBatch_eval2 : (compute_value_scores demoBatch)[2]? = some demoScored2 := by
  norm_num [compute_value_scores, demoBatch, demoRow0, demoRow1, demoRow2, demoScored2,
    map6, map4, map2, valuePriceCol, valueMileageCol, valueDepCol, valueYearCol,
    valueScoreCol, valueRankCol, priceCol, mileageCol, depCol, yearCol, _normalize,
    normCell, colMin, colMax, toNumeric, combineScore, denseRank, distinctVals]

theorem c8batch_eval0 : (compute_value_scores c8batch)[0]? = some c8scored0 := by
  norm_num [compute_value_scores, c8batch, c8row0, c8row1, c8scored0,
    map6, map4, map2, valuePriceCol, valueMileageCol, valueDepCol, valueYearCol,
    valueScoreCol, valueRankCol, priceCol, mileageCol, depCol, yearCol, _normalize,
    normCell, colMin, colMax, toNumeric, combineScore, denseRank, distinctVals]

theorem c8batch_eval1 : (compute_value_scores c8batch)[1]? = some c8scored1 := by
  norm_num [compute_value_scores, c8batch, c8row0, c8row1, c8scored1,
    map6, map4, map2, valuePriceCol, valueMileageCol, valueDepCol, valueYearCol,
    valueScoreCol, valueRankCol, priceCol, mileageCol, depCol, yearCol, _normalize,
    normCell, colMin, colMax, toNumeric, combineScore, denseRank, distinctVals]

/-- C2: for every input batch, the composite value score of each listing
equals 100 × (0.40·price_component + 0.25·mileage_component +
0.20·depreciation_component + 0.15·year_component), where the price,
mileage and depreciation components are the inverted batch-relative
min-max normalizations, the year component is the un-inverted
normalization, and the four weights sum to 1.0 (NaN components propagate
into a NaN score, as in the source). -/
theorem c2_score_formula (rows : List RawRow) (i : Nat) (sr : ScoredRow)
    (h : (compute_value_scores rows)[i]? = some sr) :
    sr.value_price = specNormAt (priceCol rows) true i
  ∧ sr.value_mileage = specNormAt (mileageCol rows) true i
  ∧ sr.value_depreciation = specNormAt (depCol rows) true i
  ∧ sr.value_year = specNormAt (yearCol rows) false i
  ∧ sr.value_score = (do
      let p ← sr.value_price
      let m ← sr.value_mileage
      let d ← sr.value_depreciation
      let y ← sr.value_year
      pure (100 * (0.40 * p + 0.25 * m + 0.20 * d + 0.15 * y)))
  ∧ (0.40 : ℚ) + 0.25 + 0.20 + 0.15 = 1 := by
  obtain ⟨hlen, hp, hm, hd, hy, hs, hrk⟩ := scored_fields rows i sr h
  refine ⟨hp, hm, hd, hy, ?_, by norm_num⟩
  rw [hs]
  rcases sr.value_price with _ | p <;> rcases sr.value_mileage with _ | m <;>
    rcases sr.value_depreciation with _ | d <;> rcases sr.value_year with _ | y <;>
    simp [combineScore, Option.bind] <;> ring

/-- Witness for C2 at row 0 of the demo batch. -/
theorem c2_witness :
    demoScored0.value_price = specNormAt (priceCol demoBatch) true 0
  ∧ (0.40 : ℚ) + 0.25 + 0.20 + 0.15 = 1 :=
  ⟨(c2_score_formula demoBatch 0 demoScored0 demoBatch_eval0).1,
   (c2_score_formula demoBatch 0 demoScored0 demoBatch_eval0).2.2.2.2.2⟩

/-- C3 is false as stated: in `demoBatch`, row 2 has a non-numeric
mileage while the mileage column holds two distinct numeric values, so
the row's mileage component, composite score and rank are all NaN — the
record does not receive a defined score or rank. -/
theorem c3_counterexample :
    (compute_value_scores demoBatch)[2]? = some demoScored2
  ∧ demoScored2.value_mileage = none
  ∧ demoScored2.value_score = none
  ∧ demoScored2.value_rank = none :=
  ⟨demoBatch_eval2, rfl, rfl, rfl⟩

/-- C3 (amended): a listing with a missing or non-numeric attribute is
still processed, and its composite score is defined exactly when each of
its four attributes is either numeric or sits in a degenerate column
(all values unknown or all equal, `colMin = colMax`); the rank is
defined exactly when the score is; and in a degenerate column every row
— malformed cells included — receives the neutral component 0.5. -/
theorem c3_amended (rows : List RawRow) (i : Nat) (ri : RawRow) (sr : ScoredRow)
    (hr : rows[i]? = some ri) (h : (compute_value_scores rows)[i]? = some sr) :
    (sr.value_score.isSome = true ↔
      ((colMin (priceCol rows) = colMax (priceCol rows)
          ∨ (toNumeric ri.price_sgd).isSome = true)
      ∧ (colMin (mileageCol rows) = colMax (mileageCol rows)
          ∨ (toNumeric ri.mileage_km).isSome = true)
      ∧ (colMin (depCol rows) = colMax (depCol rows)
          ∨ (toNumeric ri.depreciation_per_year).isSome = true)
      ∧ (colMin (yearCol rows) = colMax (yearCol rows)
          ∨ (toNumeric ri.year).isSome = true)))
  ∧ sr.value_rank.isSome = sr.value_score.isSome
  ∧ (colMin (priceCol rows) = colMax (priceCol rows) → sr.value_price = some (1/2))
  ∧ (colMin (mileageCol rows) = colMax (mileageCol rows) → sr.value_mileage = some (1/2))
  ∧ (colMin (depCol rows) = colMax (depCol rows) → sr.value_depreciation = some (1/2))
  ∧ (colMin (yearCol rows) = colMax (yearCol rows) → sr.value_year = some (1/2)) := by
  obtain ⟨hlen, hp, hm, hd, hy, hs, hrk⟩ := scored_fields rows i sr h
  have hpc : (priceCol rows)[i]? = some (toNumeric ri.price_sgd) := by
    rw [priceCol, List.getElem?_map, hr]; rfl
  have hmc : (mileageCol rows)[i]? = some (toNumeric ri.mileage_km) := by
    rw [mileageCol, List.getElem?_map, hr]; rfl
  have hdc : (depCol rows)[i]? = some (toNumeric ri.depreciation_per_year) := by
    rw [depCol, List.getElem?_map, hr]; rfl
  have hyc : (yearCol rows)[i]? = some (toNumeric ri.year) := by
    rw [yearCol, List.getElem?_map, hr]; rfl
  refine ⟨?_, ?_, fun hdeg => by rw [hp]; exact specNormAt_of_degenerate _ _ _ hdeg,
    fun hdeg => by rw [hm]; exact specNormAt_of_degenerate _ _ _ hdeg,
    fun hdeg => by rw [hd]; exact specNormAt_of_degenerate _ _ _ hdeg,
    fun hdeg => by rw [hy]; exact specNormAt_of_degenerate _ _ _ hdeg⟩
  · have hiff : ∀ p m d y : Option ℚ, (combineScore p m d y).isSome = true ↔
        (p.isSome = true ∧ m.isSome = true ∧ d.isSome = true ∧ y.isSome = true) := by
      intro p m d y
      cases p <;> cases m <;> cases d <;> cases y <;> simp [combineScore]
    rw [hs, hp, hm, hd, hy, hiff, specNormAt_isSome _ _ _ _ hpc,
      specNormAt_isSome _ _ _ _ hmc, specNormAt_isSome _ _ _ _ hdc,
      specNormAt_isSome _ _ _ _ hyc]
  · rw [hrk]
    cases sr.value_score <;> rfl

/-- Witness for the amended C3 at row 2 of the demo batch: the rank is
undefined exactly as the score is, and the all-unknown depreciation
column yields the neutral 0.5 component. -/
theorem c3_witness :
    demoScored2.value_rank.isSome = demoScored2.value_score.isSome
  ∧ demoScored2.value_depreciation = some (1/2) :=
  ⟨(c3_amended demoBatch 2 demoRow2 demoScored2 rfl demoBatch_eval2).2.1,
   (c3_amended demoBatch 2 demoRow2 demoScored2 rfl demoBatch_eval2).2.2.2.2.1
     (by rfl)⟩

/-- C8: within one scored batch, for two listings whose mileage,
depreciation and year cells are identical, the one with the strictly
lower numeric price receives a composite value score greater than or
equal to the other listing's (stated for the rows whose scores are
defined, which is what "receives a score" presupposes). -/
theorem c8_price_monotone (rows : List RawRow) (i j : Nat) (ri rj : RawRow)
    (si sj : ScoredRow) (hri : rows[i]? = some ri) (hrj : rows[j]? = some rj)
    (hsi : (compute_value_scores rows)[i]? = some si)
    (hsj : (compute_value_scores rows)[j]? = some sj)
    (hm : ri.mileage_km = rj.mileage_km)
    (hd : ri.depreciation_per_year = rj.depreciation_per_year)
    (hy : ri.year = rj.year) (a b : ℚ)
    (hpa : toNumeric ri.price_sgd = some a) (hpb : toNumeric rj.price_sgd = some b)
    (hab : a < b) (vi vj : ℚ)
    (hvi : si.value_score = some vi) (hvj : sj.value_score = some vj) :
    vj ≤ vi := by
  obtain ⟨hleni, hpi, hmi, hdi, hyi, hsi2, _⟩ := scored_fields rows i si hsi
  obtain ⟨hlenj, hpj, hmj, hdj, hyj, hsj2, _⟩ := scored_fields rows j sj hsj
  have hpci : (priceCol rows)[i]? = some (toNumeric ri.price_sgd) := by
    rw [priceCol, List.getElem?_map, hri]; rfl
  have hpcj : (priceCol rows)[j]? = some (toNumeric rj.price_sgd) := by
    rw [priceCol, List.getElem?_map, hrj]; rfl
  have hmcong : specNormAt (mileageCol rows) true i = specNormAt (mileageCol rows) true j := by
    apply specNormAt_congr
    rw [mileageCol, List.getElem?_map, List.getElem?_map, hri, hrj]
    simp [hm]
  have hdcong : specNormAt (depCol rows) true i = specNormAt (depCol rows) true j := by
    apply specNormAt_congr
    rw [depCol, List.getElem?_map, List.getElem?_map, hri, hrj]
    simp [hd]
  have hycong : specNormAt (yearCol rows) false i = specNormAt (yearCol rows) false j := by
    apply specNormAt_congr
    rw [yearCol, List.getElem?_map, List.getElem?_map, hri, hrj]
    simp [hy]
  obtain ⟨mn, hmn, hmna⟩ := colMin_le (priceCol rows) i a (by rw [hpci, hpa])
  obtain ⟨mx, hmx, hbmx⟩ := le_colMax (priceCol rows) j b (by rw [hpcj, hpb])
  have hmnmx : mn < mx := lt_of_le_of_lt hmna (lt_of_lt_of_le hab hbmx)
  have hne : ¬ (mx = mn) := fun hEq => absurd hmnmx (by rw [hEq]; exact lt_irrefl mn)
  have hpi2 : si.value_price = some (1 - (a - mn) / (mx - mn)) := by
    rw [hpi, specNormAt, hmn, hmx, hpci, hpa]
    simp [hne]
  have hpj2 : sj.value_price = some (1 - (b - mn) / (mx - mn)) := by
    rw [hpj, specNormAt, hmn, hmx, hpcj, hpb]
    simp [hne]
  rw [hsi2, hpi2, hmi] at hvi
  rw [hsj2, hpj2, hmj, ← hmcong] at hvj
  rcases hmv : specNormAt (mileageCol rows) true i with _ | mv <;> rw [hmv] at hvi hvj
  · exact absurd hvi (by simp [combineScore])
  rw [hdi] at hvi
  rw [hdj, ← hdcong] at hvj
  rcases hdv : specNormAt (depCol rows) true i with _ | dv <;> rw [hdv] at hvi hvj
  · exact absurd hvi (by simp [combineScore])
  rw [hyi] at hvi
  rw [hyj, ← hycong] at hvj
  rcases hyv : specNormAt (yearCol rows) false i with _ | yv <;> rw [hyv] at hvi hvj
  · exact absurd hvi (by simp [combineScore])
  have hvi2 : vi = (0.40 * (1 - (a - mn) / (mx - mn)) + 0.25 * mv + 0.20 * dv
      + 0.15 * yv) * 100 := by
    simpa [combineScore] using hvi.symm
  have hvj2 : vj = (0.40 * (1 - (b - mn) / (mx - mn)) + 0.25 * mv + 0.20 * dv
      + 0.15 * yv) * 100 := by
    simpa [combineScore] using hvj.symm
  have hpos : (0 : ℚ) < mx - mn := sub_pos.mpr hmnmx
  have hdivle : (a - mn) / (mx - mn) ≤ (b - mn) / (mx - mn) := by
    gcongr
  rw [hvi2, hvj2]
  nlinarith [hdivle]

/-- Witness for C8: in the concrete two-row batch the cheaper listing
scores 70 and the dearer one 30. -/
theorem c8_witness : (30 : ℚ) ≤ 70 :=
  c8_price_monotone c8batch 0 1 c8row0 c8row1 c8scored0 c8scored1 rfl rfl
    c8batch_eval0 c8batch_eval1 rfl rfl rfl 1 2 rfl rfl (by norm_num) 70 30 rfl rfl

theorem pure_eq_ok (a : α) : (pure a : Except String α) = .ok a := rfl

theorem buildEmpty_eval : build_filters_from_profile {} = .ok builtFromEmpty := by
  simp +decide [build_filters_from_profile, pyMulQ, pyTrunc, pyLower, pyGeInt, pyEqStr,
    builtFromEmpty, ok_bind, error_bind, pure_eq_ok, pyLowerStr, containsSub, startsWithL]

theorem buildNeg_eval :
    build_filters_from_profile { budget_sgd := some (.vInt (-1)) } = .ok builtFromNegBudget := by
  simp +decide [build_filters_from_profile, pyMulQ, pyTrunc, pyLower, pyGeInt, pyEqStr,
    builtFromNegBudget, builtFromEmpty, ok_bind, error_bind, pure_eq_ok, pyLowerStr,
    containsSub, startsWithL]
  norm_num [Int.floor_eq_iff, Int.ceil_eq_iff]

theorem buildOne_eval :
    build_filters_from_profile { budget_sgd := some (.vInt 1) } = .ok builtFromOne := by
  simp +decide [build_filters_from_profile, pyMulQ, pyTrunc, pyLower, pyGeInt, pyEqStr,
    builtFromOne, builtFromEmpty, ok_bind, error_bind, pure_eq_ok, pyLowerStr,
    containsSub, startsWithL]
  norm_num [Int.floor_eq_iff, Int.ceil_eq_iff]

theorem build100k_eval :
    build_filters_from_profile { budget_sgd := some (.vInt 100000) }
      = .ok builtFrom100k := by
  simp +decide [build_filters_from_profile, pyMulQ, pyTrunc, pyLower, pyGeInt, pyEqStr,
    builtFrom100k, builtFromEmpty, ok_bind, error_bind, pure_eq_ok, pyLowerStr,
    containsSub, startsWithL]
  norm_num [Int.floor_eq_iff, Int.ceil_eq_iff]

/-- C4 is false as stated: with the budget absent the builder does not
leave the price bounds unset — it emits `min_price = max_price = 0`,
which reach the query as real constraints; and with budget 1 the upper
bound is the truncation `int(1*1.2) = 1`, not the rounded-up 2. -/
theorem c4_counterexample :
    build_filters_from_profile {} = .ok builtFromEmpty
  ∧ (builtToFilters builtFromEmpty).min_price = some 0
  ∧ (builtToFilters builtFromEmpty).max_price = some 0
  ∧ build_filters_from_profile { budget_sgd := some (.vInt 1) } = .ok builtFromOne
  ∧ builtFromOne.max_price = 1
  ∧ ⌈(1 : ℚ) * 1.2⌉ = 2 :=
  ⟨buildEmpty_eval, rfl, rfl, buildOne_eval, rfl, by
    rw [show ((1 : ℚ) * 1.2) = 6/5 by norm_num, Int.ceil_eq_iff]
    norm_num⟩

/-- C4 (amended): whenever the builder succeeds and the budget read from
the profile is the integer `b` (0 when the field is absent), both price
bounds are always set — `min_price` to the truncation toward zero of
`b × 0.8` and `max_price` to the truncation toward zero of `b × 1.2` —
and they reach the query as present constraints; no budget value leaves
them unset. -/
theorem c4_amended (p : Profile) (f : BuiltFilters) (b : Int)
    (hf : build_filters_from_profile p = .ok f)
    (hb : p.budget_sgd = some (.vInt b) ∨ (p.budget_sgd = none ∧ b = 0)) :
    f.min_price = pyTrunc ((b : ℚ) * 0.8)
  ∧ f.max_price = pyTrunc ((b : ℚ) * 1.2)
  ∧ (builtToFilters f).min_price = some f.min_price
  ∧ (builtToFilters f).max_price = some f.max_price := by
  obtain ⟨b2, hb2, hmin, hmax, _, _, _, _⟩ := build_ok_shape p f hf
  have hbb : b2 = b := by
    rcases hb with h | ⟨h, hb0⟩
    · rw [h] at hb2
      simp only [Option.getD_some, PyVal.vInt.injEq] at hb2
      exact hb2.symm
    · rw [h] at hb2
      simp only [Option.getD_none, PyVal.vInt.injEq] at hb2
      omega
  subst hbb
  exact ⟨hmin, hmax, rfl, rfl⟩

/-- Witness for the amended C4 at the profile with budget 100000. -/
theorem c4_witness :
    builtFrom100k.min_price = pyTrunc (((100000 : Int) : ℚ) * 0.8)
  ∧ builtFrom100k.max_price = pyTrunc (((100000 : Int) : ℚ) * 1.2)
  ∧ (builtToFilters builtFrom100k).min_price = some builtFrom100k.min_price
  ∧ (builtToFilters builtFrom100k).max_price = some builtFrom100k.max_price :=
  c4_amended { budget_sgd := some (.vInt 100000) } builtFrom100k 100000 build100k_eval
    (Or.inl rfl)

/-- C5 is false as stated: with the integer budget −1 the builder
produces `min_price = 0 > max_price = −1` (truncation toward zero of
−0.8 and of −1.2), violating the min ≤ max invariant. -/
theorem c5_counterexample :
    build_filters_from_profile { budget_sgd := some (.vInt (-1)) } = .ok builtFromNegBudget
  ∧ builtFromNegBudget.min_price = 0
  ∧ builtFromNegBudget.max_price = -1
  ∧ ¬ builtFromNegBudget.min_price ≤ builtFromNegBudget.max_price :=
  ⟨buildNeg_eval, rfl, rfl, by decide⟩

/-- C5 (amended): for every profile on which the builder succeeds and
whose budget, when it is a stored integer, is non-negative, the built
filters satisfy `min_price ≤ max_price`, `min_year ≤ max_year` and
`min_mileage ≤ max_mileage` (all three pairs are always present). -/
theorem c5_amended (p : Profile) (f : BuiltFilters)
    (hf : build_filters_from_profile p = .ok f)
    (hb : ∀ b : Int, p.budget_sgd = some (.vInt b) → 0 ≤ b) :
    f.min_price ≤ f.max_price ∧ f.min_year ≤ f.max_year ∧ f.min_mileage ≤ f.max_mileage := by
  obtain ⟨b, hb2, hmin, hmax, hyr, hymax, hmm, hml⟩ := build_ok_shape p f hf
  have hbnn : (0 : Int) ≤ b := by
    rcases hopt : p.budget_sgd with _ | v
    · rw [hopt] at hb2
      simp only [Option.getD_none, PyVal.vInt.injEq] at hb2
      omega
    · rw [hopt] at hb2
      simp only [Option.getD_some] at hb2
      subst hb2
      exact hb b hopt
  refine ⟨?_, ?_, ?_⟩
  · have hbq : (0 : ℚ) ≤ (b : ℚ) := by exact_mod_cast hbnn
    have h8 : (0 : ℚ) ≤ (b : ℚ) * 0.8 := mul_nonneg hbq (by norm_num)
    have h12 : (0 : ℚ) ≤ (b : ℚ) * 1.2 := mul_nonneg hbq (by norm_num)
    rw [hmin, hmax, pyTrunc, pyTrunc, if_pos h8, if_pos h12]
    exact Int.floor_le_floor (mul_le_mul_of_nonneg_left (by norm_num) hbq)
  · rcases hyr with h | h | h <;> rw [h, hymax] <;> norm_num
  · rcases hml with h | h | h <;> rw [hmm, h] <;> norm_num

/-- Witness for the amended C5 at the empty profile. -/
theorem c5_witness :
    builtFromEmpty.min_price ≤ builtFromEmpty.max_price
  ∧ builtFromEmpty.min_year ≤ builtFromEmpty.max_year
  ∧ builtFromEmpty.min_mileage ≤ builtFromEmpty.max_mileage :=
  c5_amended {} builtFromEmpty buildEmpty_eval (fun _ h => nomatch h)

/-- C9 is false as stated: a profile whose `brand_bias` field holds the
number 0 — a value, but not a string — makes step 5 of the builder call
`.lower()` on it and raise `AttributeError`, so the builder is not total
when every preference field may hold any value. -/
theorem c9_counterexample :
    build_filters_from_profile intBrandProfile
      = .error "AttributeError: object has no attribute lower" := by
  simp +decide [build_filters_from_profile, intBrandProfile, pyMulQ, pyTrunc, pyLower,
    pyGeInt, ok_bind, error_bind, pure_eq_ok]

/-- C9 (amended): the builder raises no exception exactly on the
well-typed profiles — `budget_sgd` and `family_size` absent or holding
integers, `brand_bias` absent or holding a string; the six remaining
preference fields may be absent or hold any value, because the builder
only touches them through `dict.get` defaults and `==` comparisons,
which never raise.  On every other profile it raises (`TypeError` or
`AttributeError`). -/
theorem c9_amended (p : Profile) :
    (build_filters_from_profile p).isOk = wellTypedProfile p := by
  obtain ⟨bud, age, mil, own, brd, bodyp, run, fuel, fam⟩ := p
  rcases bud with _ | (_ | bn | bs) <;> rcases brd with _ | (_ | rn | rs) <;>
    rcases fam with _ | (_ | fn | fs) <;>
    simp [build_filters_from_profile, pyMulQ, pyLower, pyGeInt, wellTypedProfile,
      intOrAbsent, strOrAbsent, ok_bind, error_bind, pure_eq_ok, Except.isOk, Except.toBool]

end SgCar
